import Mathlib

/-!
Verification of the stereo-unity-gain audio engine against its
natural-language specification.

The Rust sources are shallowly embedded: pure functions become Lean
functions, `usize` becomes `Nat` with explicit modular or saturating
behaviour where the source relies on it, `f32` values become exact
rationals (every finite IEEE-754 value is rational) or reals where
logarithms are involved, and fallible code returns `Except`.
-/

deriving instance DecidableEq for Except

namespace StereoUnityGain

/-! ### Error type (src/errors.rs, the constructors the claims touch) -/

inductive LocalError where
  | ChannelIndex (msg : String)
  | DeviceNotFound (name : String)
  | DeviceConfiguration (msg : String)
  | InputStream (msg : String)
  | OutputStream (msg : String)
  | LevelMeterStop (msg : String)
  | ToneGeneratorStop (msg : String)
  | NoDefaultInputDevice
  deriving DecidableEq, Repr

/-! ### Rust `str::parse::<usize>` (core::num::from_str_radix, radix 10)

Rust's unsigned integer parsing: an empty string fails with
"cannot parse integer from empty string"; one leading `+` is allowed
(a bare "+" fails with "invalid digit found in string"); every further
character must be an ASCII digit, otherwise "invalid digit found in
string"; the accumulated value is checked against `usize::MAX`
(64-bit), overflow failing with "number too large to fit in target
type". -/

def USIZE_MAX : Nat := 2 ^ 64 - 1

def parseUsizeGo : List Char → Nat → Except String Nat
  | [], acc => .ok acc
  | c :: cs, acc =>
    if c.isDigit then
      let acc2 := acc * 10 + (c.toNat - 48)
      if acc2 > USIZE_MAX then .error "number too large to fit in target type"
      else parseUsizeGo cs acc2
    else .error "invalid digit found in string"

def parseUsize (s : String) : Except String Nat :=
  match s.data with
  | [] => .error "cannot parse integer from empty string"
  | c :: cs =>
    match (if c = '+' then cs else c :: cs) with
    | [] => .error "invalid digit found in string"
    | d :: ds => parseUsizeGo (d :: ds) 0

/-! ### Channel index resolver (src/device_manager.rs 250-256, 234-248)

`get_channel_index_from_name` parses the 1-based label and applies
`saturating_sub(1)`; on `Nat` the saturating subtraction is `Nat.sub`
itself. `get_channel_indexes_from_channel_names` resolves the left
label, then the right label only when one is present. -/

def get_channel_index_from_name (channel : String) : Except LocalError Nat :=
  match parseUsize channel with
  | .error err => .error (.ChannelIndex err)
  | .ok channel_number => .ok (channel_number - 1)

def get_channel_indexes_from_channel_names (left_channel : String)
    (right_channel : Option String) : Except LocalError (Nat × Option Nat) :=
  match get_channel_index_from_name left_channel with
  | .error e => .error e
  | .ok left_index =>
    match right_channel with
    | none => .ok (left_index, none)
    | some r =>
      match get_channel_index_from_name r with
      | .error e => .error e
      | .ok right_index => .ok (left_index, some right_index)

/-! ### C1 -/

/-- C1: for every label that parses as a base-10 unsigned integer `n`
the resolved zero-based index is `n - 1` with saturating subtraction
(so label "0" resolves to index 0, not an error); every non-empty label
that fails to parse yields a `ChannelIndex` error carrying the original
parser message; and an absent right label resolves to `none`. -/
theorem channel_label_resolution_c1 :
    (∀ s n, parseUsize s = .ok n →
      get_channel_index_from_name s = .ok (n - 1)) ∧
    (get_channel_index_from_name "0" = .ok 0) ∧
    (∀ s msg, s ≠ "" → parseUsize s = .error msg →
      get_channel_index_from_name s = .error (.ChannelIndex msg)) ∧
    (∀ left li, get_channel_index_from_name left = .ok li →
      get_channel_indexes_from_channel_names left none = .ok (li, none)) := by
  refine ⟨fun s n h => ?_, by decide, fun s msg _ h => ?_, fun left li h => ?_⟩
  · simp [get_channel_index_from_name, h]
  · simp [get_channel_index_from_name, h]
  · simp [get_channel_indexes_from_channel_names, h]

/-- Witness for C1 at concrete inputs: "3" resolves to index 2, "0" to
index 0, "abc" to a `ChannelIndex` error with the parser message, and a
left-only resolution returns a `none` right index. -/
theorem channel_label_resolution_c1_witness :
    get_channel_index_from_name "3" = .ok 2 ∧
    get_channel_index_from_name "abc" =
      .error (.ChannelIndex "invalid digit found in string") ∧
    get_channel_indexes_from_channel_names "2" none = .ok (1, none) :=
  ⟨channel_label_resolution_c1.1 "3" 3 (by decide),
   channel_label_resolution_c1.2.2.1 "abc" "invalid digit found in string"
     (by decide) (by decide),
   channel_label_resolution_c1.2.2.2 "2" 1
     (channel_label_resolution_c1.1 "2" 2 (by decide))⟩

/-! ### f32 values as exact rationals

Every finite IEEE-754 single value is an exact rational; `FVal` adds
the non-finite values the formatter must branch on. The f32 literals
appearing in the source are embedded as the exact rationals they
denote: `0.1f32 = 13421773 / 2^27`, `-0.05f32 = -13421773 / 2^28`,
`0.15f32 = 10066330 / 2^26`. -/

inductive FVal where
  | nan
  | inf
  | negInf
  | fin (q : ℚ)
  deriving DecidableEq

def F32_TENTH : ℚ := 13421773 / 134217728

def F32_NEG_FIVE_HUNDREDTHS : ℚ := -(13421773 / 268435456)

def F32_FIFTEEN_HUNDREDTHS : ℚ := 10066330 / 67108864

/-- Rust formats a float with explicit precision by rounding the exact
binary value to the requested number of decimal digits, ties to even.
`roundHalfEven x` is that rounding to the nearest integer. -/
def roundHalfEven (x : ℚ) : ℤ :=
  if x - ⌊x⌋ < 1 / 2 then ⌊x⌋
  else if 1 / 2 < x - ⌊x⌋ then ⌊x⌋ + 1
  else if ⌊x⌋ % 2 = 0 then ⌊x⌋ else ⌊x⌋ + 1

/-- Decimal rendering of a signed tenths count: sign, integer part,
dot, tenths digit. -/
def fmtTenths (t : ℤ) : String :=
  (if t < 0 then "-" else "") ++ toString (t.natAbs / 10) ++ "." ++
    toString (t.natAbs % 10)

/-- Rendering of `format!("{:.1}", v)` for a finite value: the tenths
digit after round-half-even, with the value's own minus sign. -/
def formatRustOneDecimal (q : ℚ) : String :=
  fmtTenths (roundHalfEven (10 * q))

/-! ### Display formatter
(src/src/level_meter.rs 522-535 and src/src/ui.rs 771-781; the two
copies differ only in writing the infinity test as two equalities
versus `is_infinite()`, which agree on every input). -/

def format_peak_delta_values_for_display : FVal → String
  | .nan => "-"
  | .inf => "-"
  | .negInf => "-"
  | .fin v =>
    if v < 0 ∧ -F32_TENTH < v then "0.0"
    else if F32_TENTH < v then "+" ++ formatRustOneDecimal v
    else formatRustOneDecimal v

theorem roundHalfEven_nearest (x : ℚ) : |x - roundHalfEven x| ≤ 1 / 2 := by
  have h0 : (⌊x⌋ : ℚ) ≤ x := Int.floor_le x
  have h1 : x < ⌊x⌋ + 1 := Int.lt_floor_add_one x
  unfold roundHalfEven
  by_cases hlt : x - ⌊x⌋ < 1 / 2
  · rw [if_pos hlt, abs_le]
    constructor <;> linarith
  · rw [if_neg hlt]
    by_cases hgt : 1 / 2 < x - ⌊x⌋
    · rw [if_pos hgt, abs_le]
      push_cast
      constructor <;> linarith
    · have heq : x - ⌊x⌋ = 1 / 2 := le_antisymm (not_lt.mp hgt) (not_lt.mp hlt)
      rw [if_neg hgt]
      by_cases hev : ⌊x⌋ % 2 = 0
      · rw [if_pos hev, abs_le]
        constructor <;> linarith
      · rw [if_neg hev, abs_le]
        push_cast
        constructor <;> linarith

/-! ### C2 -/

/-- C2: the display formatter sends infinities and NaN to "-"; a finite
value strictly between -0.1 and 0 to "0.0"; a value greater than 0.1 to
its one-decimal rounding prefixed with "+"; and every other value to
its one-decimal rounding with no added prefix — in particular
`format(-0.05) = "0.0"` and `format(0.15) = "+0.2"` — where the
one-decimal rounding is to a nearest tenth. -/
theorem format_peak_delta_c2 :
    (format_peak_delta_values_for_display .nan = "-" ∧
     format_peak_delta_values_for_display .inf = "-" ∧
     format_peak_delta_values_for_display .negInf = "-") ∧
    (∀ q : ℚ, -F32_TENTH < q → q < 0 →
      format_peak_delta_values_for_display (.fin q) = "0.0") ∧
    (∀ q : ℚ, F32_TENTH < q →
      format_peak_delta_values_for_display (.fin q) =
        "+" ++ formatRustOneDecimal q) ∧
    (∀ q : ℚ, ¬(q < 0 ∧ -F32_TENTH < q) → ¬F32_TENTH < q →
      format_peak_delta_values_for_display (.fin q) = formatRustOneDecimal q) ∧
    (∀ q : ℚ, |10 * q - roundHalfEven (10 * q)| ≤ 1 / 2) ∧
    (format_peak_delta_values_for_display (.fin F32_NEG_FIVE_HUNDREDTHS) = "0.0") ∧
    (format_peak_delta_values_for_display (.fin F32_FIFTEEN_HUNDREDTHS) = "+0.2") := by
  have hpos : (0 : ℚ) < F32_TENTH := by norm_num [F32_TENTH]
  have key2 : ∀ q : ℚ, -F32_TENTH < q → q < 0 →
      format_peak_delta_values_for_display (.fin q) = "0.0" := by
    intro q h1 h2
    simp only [format_peak_delta_values_for_display]
    rw [if_pos ⟨h2, h1⟩]
  have key3 : ∀ q : ℚ, F32_TENTH < q →
      format_peak_delta_values_for_display (.fin q) =
        "+" ++ formatRustOneDecimal q := by
    intro q h
    simp only [format_peak_delta_values_for_display]
    rw [if_neg (by rintro ⟨hlt, -⟩; linarith), if_pos h]
  have key4 : ∀ q : ℚ, ¬(q < 0 ∧ -F32_TENTH < q) → ¬F32_TENTH < q →
      format_peak_delta_values_for_display (.fin q) = formatRustOneDecimal q := by
    intro q h1 h2
    simp only [format_peak_delta_values_for_display]
    rw [if_neg h1, if_neg h2]
  have hfloor : ⌊(10 * F32_FIFTEEN_HUNDREDTHS : ℚ)⌋ = 1 := by
    rw [Int.floor_eq_iff]
    norm_num [F32_FIFTEEN_HUNDREDTHS]
  have hrnd : roundHalfEven (10 * F32_FIFTEEN_HUNDREDTHS) = 2 := by
    unfold roundHalfEven
    rw [hfloor]
    rw [if_neg (by norm_num [F32_FIFTEEN_HUNDREDTHS]),
        if_pos (by norm_num [F32_FIFTEEN_HUNDREDTHS])]
    decide
  have hfmt : formatRustOneDecimal F32_FIFTEEN_HUNDREDTHS = "0.2" := by
    unfold formatRustOneDecimal
    rw [hrnd]
    rfl
  refine ⟨⟨rfl, rfl, rfl⟩, key2, key3, key4,
    fun q => roundHalfEven_nearest (10 * q),
    key2 F32_NEG_FIVE_HUNDREDTHS (by norm_num [F32_NEG_FIVE_HUNDREDTHS, F32_TENTH])
      (by norm_num [F32_NEG_FIVE_HUNDREDTHS]), ?_⟩
  rw [key3 F32_FIFTEEN_HUNDREDTHS (by norm_num [F32_FIFTEEN_HUNDREDTHS, F32_TENTH]),
    hfmt]
  rfl

/-- Witness for C2: the formatter evaluated at the concrete values
named by the claim. -/
theorem format_peak_delta_c2_witness :
    format_peak_delta_values_for_display (.fin F32_NEG_FIVE_HUNDREDTHS) = "0.0" ∧
    format_peak_delta_values_for_display (.fin F32_FIFTEEN_HUNDREDTHS) = "+0.2" ∧
    format_peak_delta_values_for_display (.fin (-3)) = formatRustOneDecimal (-3) :=
  ⟨format_peak_delta_c2.2.1 F32_NEG_FIVE_HUNDREDTHS (by norm_num
      [F32_NEG_FIVE_HUNDREDTHS, F32_TENTH]) (by norm_num [F32_NEG_FIVE_HUNDREDTHS]),
   format_peak_delta_c2.2.2.2.2.2.2,
   format_peak_delta_c2.2.2.2.1 (-3) (by norm_num [F32_TENTH])
     (by norm_num [F32_TENTH])⟩

/-! ### Peak metering (src/src/level_meter.rs 513-520)

Sample values are finite f32, embedded as rationals; the dBFS result
can be `-inf` (f32's `log10(0.0)`), embedded as a dedicated
constructor. `get_dbfs_from_sample_value` is `20.0 * sample.abs().log10()`
under IEEE semantics: `-inf` when the magnitude is zero, otherwise the
finite real `20 * log10 |sample|`. -/

inductive DbVal where
  | negInf
  | fin (x : ℝ)

noncomputable def get_dbfs_from_sample_value (sample : ℚ) : DbVal :=
  if |sample| = 0 then .negInf else .fin (20 * Real.logb 10 ((|sample| : ℚ) : ℝ))

/-- The peak fold of the source:
`samples.iter().fold(0.0f32, |acc, &x| x.abs().max(acc))`. -/
def windowPeak (samples : List ℚ) : ℚ :=
  samples.foldl (fun acc x => max |x| acc) 0

noncomputable def get_peak_of_sine_wave_samples (samples : List ℚ) : DbVal :=
  get_dbfs_from_sample_value (windowPeak samples)

theorem windowPeak_init_le (w : List ℚ) :
    ∀ a : ℚ, a ≤ w.foldl (fun acc x => max |x| acc) a := by
  induction w with
  | nil => intro a; exact le_refl a
  | cons y ys ih =>
    intro a
    calc a ≤ max |y| a := le_max_right _ _
    _ ≤ ys.foldl (fun acc x => max |x| acc) (max |y| a) := ih _

theorem windowPeak_mem_le (w : List ℚ) :
    ∀ a : ℚ, ∀ x ∈ w, |x| ≤ w.foldl (fun acc x => max |x| acc) a := by
  induction w with
  | nil => intro a x hx; cases hx
  | cons y ys ih =>
    intro a x hx
    rcases List.mem_cons.mp hx with rfl | hx
    · calc |x| ≤ max |x| a := le_max_left _ _
      _ ≤ ys.foldl (fun acc z => max |z| acc) (max |x| a) := windowPeak_init_le ys _
    · exact ih _ x hx

theorem windowPeak_attained (w : List ℚ) :
    ∀ a : ℚ, w.foldl (fun acc x => max |x| acc) a = a ∨
      ∃ x ∈ w, w.foldl (fun acc x => max |x| acc) a = |x| := by
  induction w with
  | nil => intro a; exact Or.inl rfl
  | cons y ys ih =>
    intro a
    rcases ih (max |y| a) with h | ⟨x, hx, hfx⟩
    · rcases max_choice |y| a with hm | hm
      · exact Or.inr ⟨y, List.mem_cons_self y ys, by rw [List.foldl_cons, h, hm]⟩
      · exact Or.inl (by rw [List.foldl_cons, h, hm])
    · exact Or.inr ⟨x, List.mem_cons_of_mem y hx, by rw [List.foldl_cons, hfx]⟩

theorem windowPeak_nonneg (w : List ℚ) : 0 ≤ windowPeak w :=
  windowPeak_init_le w 0

/-! ### C3 -/

/-- C3: the reported level is `20 * log10` of the maximum sample
magnitude over the window — the fold bounds every sample magnitude and
is attained by one of them when nonzero; an all-zero or empty window
reports the representable `-inf` value; a window of peak magnitude
`0.7` reports exactly `20 * log10 (0.7)`. -/
theorem peak_metering_c3 :
    (∀ w : List ℚ, ∀ x ∈ w, |x| ≤ windowPeak w) ∧
    (∀ w : List ℚ, windowPeak w ≠ 0 → ∃ x ∈ w, |x| = windowPeak w) ∧
    (∀ w : List ℚ, (∀ x ∈ w, x = 0) →
      get_peak_of_sine_wave_samples w = .negInf) ∧
    (∀ w : List ℚ, windowPeak w ≠ 0 →
      get_peak_of_sine_wave_samples w =
        .fin (20 * Real.logb 10 ((windowPeak w : ℚ) : ℝ))) ∧
    (∀ w : List ℚ, windowPeak w = 7 / 10 →
      get_peak_of_sine_wave_samples w = .fin (20 * Real.logb 10 ((7 : ℝ) / 10))) := by
  have habs : ∀ w : List ℚ, |windowPeak w| = windowPeak w :=
    fun w => abs_of_nonneg (windowPeak_nonneg w)
  have hfin : ∀ w : List ℚ, windowPeak w ≠ 0 →
      get_peak_of_sine_wave_samples w =
        .fin (20 * Real.logb 10 ((windowPeak w : ℚ) : ℝ)) := by
    intro w hw
    unfold get_peak_of_sine_wave_samples get_dbfs_from_sample_value
    rw [habs w, if_neg hw]
  refine ⟨fun w => windowPeak_mem_le w 0, fun w hw => ?_, fun w hw => ?_, hfin,
    fun w hw => ?_⟩
  · rcases windowPeak_attained w 0 with h | ⟨x, hx, hfx⟩
    · exact absurd h hw
    · exact ⟨x, hx, hfx.symm⟩
  · have hzero : windowPeak w = 0 := by
      rcases windowPeak_attained w 0 with h | ⟨x, hx, hfx⟩
      · exact h
      · rw [windowPeak, hfx, hw x hx, abs_zero]
    unfold get_peak_of_sine_wave_samples get_dbfs_from_sample_value
    rw [hzero, abs_zero, if_pos rfl]
  · rw [hfin w (by rw [hw]; norm_num), hw]
    norm_num

/-- Witness for C3: a window whose largest magnitude is `0.7` reports
`20 * log10 (0.7)`, and the all-zero window reports `-inf`. -/
theorem peak_metering_c3_witness :
    get_peak_of_sine_wave_samples [1 / 10, -(1 / 2), 3 / 10, 7 / 10, -(1 / 5)] =
      .fin (20 * Real.logb 10 ((7 : ℝ) / 10)) ∧
    get_peak_of_sine_wave_samples [0, 0, 0] = .negInf :=
  ⟨peak_metering_c3.2.2.2.2 [1 / 10, -(1 / 2), 3 / 10, 7 / 10, -(1 / 5)] (by
      unfold windowPeak
      simp only [List.foldl_cons, List.foldl_nil, abs_neg]
      rw [abs_of_nonneg (by norm_num : (0 : ℚ) ≤ 1 / 5),
        abs_of_nonneg (by norm_num : (0 : ℚ) ≤ 7 / 10),
        abs_of_nonneg (by norm_num : (0 : ℚ) ≤ 3 / 10),
        abs_of_nonneg (by norm_num : (0 : ℚ) ≤ 1 / 2),
        abs_of_nonneg (by norm_num : (0 : ℚ) ≤ 1 / 10)]
      norm_num [max_def]),
   peak_metering_c3.2.2.1 [0, 0, 0] (by
      intro x hx
      simp only [List.mem_cons, List.not_mem_nil, or_false] at hx
      rcases hx with rfl | rfl | rfl <;> rfl)⟩

/-! ### Sine tone generator (src/src/tone_generator/sine.rs)

`Sine::new` sets phase 0 and `phase_increment = 2π * (1 / sample_rate)`;
`generate_tone_sample` adds `phase_increment * reference_frequency`,
resets the phase to 0 once it reaches `2π`, and returns
`sin(phase) * dbfs_adjustment_factor`. -/

noncomputable def RADS_PER_CYCLE : ℝ := 2 * Real.pi

structure Sine where
  phase : ℝ
  phase_increment : ℝ

noncomputable def Sine.new (sample_rate : ℝ) : Sine :=
  { phase := 0, phase_increment := RADS_PER_CYCLE * (1 / sample_rate) }

noncomputable def Sine.generate_tone_sample (s : Sine)
    (reference_frequency dbfs_adjustment_factor : ℝ) : Sine × ℝ :=
  let phase1 := s.phase + s.phase_increment * reference_frequency
  let phase2 := if RADS_PER_CYCLE ≤ phase1 then 0 else phase1
  ({ s with phase := phase2 }, Real.sin phase2 * dbfs_adjustment_factor)

/-- Folding a sequence of `(frequency, adjustment)` calls through the
generator, keeping the state. -/
noncomputable def Sine.runCalls (s : Sine) : List (ℝ × ℝ) → Sine
  | [] => s
  | c :: cs => ((s.generate_tone_sample c.1 c.2).1).runCalls cs

theorem Sine.generate_preserves_increment (s : Sine) (f g : ℝ) :
    ((s.generate_tone_sample f g).1).phase_increment = s.phase_increment := rfl

theorem Sine.generate_phase_mem (s : Sine) (f g : ℝ)
    (hs : s.phase ∈ Set.Ico 0 RADS_PER_CYCLE) (hinc : 0 ≤ s.phase_increment)
    (hf : 0 ≤ f) :
    ((s.generate_tone_sample f g).1).phase ∈ Set.Ico 0 RADS_PER_CYCLE := by
  obtain ⟨h0, h1⟩ := hs
  have hcycle : 0 < RADS_PER_CYCLE := by
    simp only [RADS_PER_CYCLE]
    positivity
  simp only [Sine.generate_tone_sample]
  by_cases hwrap : RADS_PER_CYCLE ≤ s.phase + s.phase_increment * f
  · rw [if_pos hwrap]
    exact ⟨le_refl 0, hcycle⟩
  · rw [if_neg hwrap]
    exact ⟨by positivity, lt_of_not_le hwrap⟩

theorem Sine.runCalls_phase_mem (calls : List (ℝ × ℝ)) :
    ∀ s : Sine, s.phase ∈ Set.Ico 0 RADS_PER_CYCLE → 0 ≤ s.phase_increment →
      (∀ c ∈ calls, 0 ≤ c.1) →
      (s.runCalls calls).phase ∈ Set.Ico 0 RADS_PER_CYCLE := by
  induction calls with
  | nil => intro s hs _ _; exact hs
  | cons c cs ih =>
    intro s hs hinc hf
    simp only [Sine.runCalls]
    exact ih _ (Sine.generate_phase_mem s c.1 c.2 hs hinc
        (hf c (List.mem_cons_self c cs)))
      (by rw [Sine.generate_preserves_increment]; exact hinc)
      (fun d hd => hf d (List.mem_cons_of_mem c hd))

/-! ### C4 -/

/-- C4: for every positive sample rate, starting from `Sine::new`'s
phase 0, the phase stays in `[0, 2π)` across any sequence of
`generate_tone_sample` calls with non-negative frequencies; each call
adds `phase_increment * frequency` (with
`phase_increment = 2π / sample_rate`) and resets the phase to 0 exactly
when the accumulated phase reaches or exceeds `2π`. -/
theorem sine_phase_invariant_c4 (sample_rate : ℝ) (hsr : 0 < sample_rate)
    (calls : List (ℝ × ℝ)) (hfreq : ∀ c ∈ calls, 0 ≤ c.1) :
    ((Sine.new sample_rate).runCalls calls).phase ∈ Set.Ico 0 RADS_PER_CYCLE ∧
    (Sine.new sample_rate).phase_increment = 2 * Real.pi / sample_rate ∧
    (∀ s : Sine, ∀ f g : ℝ,
      ((s.generate_tone_sample f g).1).phase =
        if RADS_PER_CYCLE ≤ s.phase + s.phase_increment * f then 0
        else s.phase + s.phase_increment * f) := by
  have hcycle : 0 < RADS_PER_CYCLE := by
    simp only [RADS_PER_CYCLE]
    positivity
  refine ⟨Sine.runCalls_phase_mem calls _ ⟨le_refl 0, hcycle⟩ ?_ hfreq, ?_, ?_⟩
  · simp only [Sine.new, RADS_PER_CYCLE]
    positivity
  · simp only [Sine.new, RADS_PER_CYCLE]
    ring
  · intro s f g
    rfl

/-- Witness for C4 at sample rate 2 with a single call at frequency 1:
the resulting phase lies in `[0, 2π)`. -/
theorem sine_phase_invariant_c4_witness :
    ((Sine.new 2).runCalls [(1, 1)]).phase ∈ Set.Ico 0 RADS_PER_CYCLE :=
  (sine_phase_invariant_c4 2 (by norm_num) [(1, 1)] (by
    intro c hc
    simp only [List.mem_cons, List.not_mem_nil, or_false] at hc
    rw [hc]
    norm_num)).1

/-! ### Level-meter accumulation loop (src/src/level_meter.rs 269-338)

One iteration of the analysis loop after a successful pop: when the
accumulated left collection holds MORE than
`INPUT_BUFFERS_FOR_PEAK_CALCULATION = 20` blocks, the current
collections are taken as the peak window (the source flattens them and
feeds `get_peak_of_sine_wave_samples`), both collections are
`truncate(0)`-ed, and only then is the freshly popped buffer inserted
at position 0; otherwise the popped buffer is inserted with no window
emitted. -/

def INPUT_BUFFERS_FOR_PEAK_CALCULATION : Nat := 20

structure MeterAccum where
  leftCollection : List (List ℚ)
  rightCollection : List (List ℚ)
  deriving DecidableEq

def meterAccumStep (st : MeterAccum) (buf : List ℚ × List ℚ) :
    MeterAccum × Option (List (List ℚ) × List (List ℚ)) :=
  if st.leftCollection.length > INPUT_BUFFERS_FOR_PEAK_CALCULATION then
    (⟨[buf.1], [buf.2]⟩, some (st.leftCollection, st.rightCollection))
  else (⟨buf.1 :: st.leftCollection, buf.2 :: st.rightCollection⟩, none)

def runMeterAccumAux (st : MeterAccum)
    (emitted : List (List (List ℚ) × List (List ℚ))) :
    List (List ℚ × List ℚ) → MeterAccum × List (List (List ℚ) × List (List ℚ))
  | [] => (st, emitted)
  | buf :: bufs =>
    let step := meterAccumStep st buf
    runMeterAccumAux step.1 (emitted ++ step.2.toList) bufs

/-- Running the analysis loop from empty collections over a sequence of
popped buffers, collecting every emitted peak window. -/
def runMeterAccum (bufs : List (List ℚ × List ℚ)) :
    MeterAccum × List (List (List ℚ) × List (List ℚ)) :=
  runMeterAccumAux ⟨[], []⟩ [] bufs

/-! ### C5 -/

/-- C5 counterexample: feeding 20 buffers emits no window at all, and
after 22 buffers the single emitted window holds 21 blocks, not 20 —
the source tests `len() > 20` before inserting the popped block, so a
window is only formed at the 22nd pop and spans 21 blocks. -/
theorem peak_window_c5_counterexample :
    (runMeterAccum (List.replicate 20 (([] : List ℚ), ([] : List ℚ)))).2 = [] ∧
    (runMeterAccum (List.replicate 21 (([] : List ℚ), ([] : List ℚ)))).2 = [] ∧
    ((runMeterAccum (List.replicate 22 (([] : List ℚ), ([] : List ℚ)))).2.map
      (fun w => (w.1.length, w.2.length))) = [(21, 21)] := by decide

theorem meterAccumStep_window_len (st : MeterAccum) (buf : List ℚ × List ℚ)
    (hlen : st.leftCollection.length ≤ 21)
    (heq : st.rightCollection.length = st.leftCollection.length) :
    (∀ w, (meterAccumStep st buf).2 = some w →
      w.1.length = 21 ∧ w.2.length = 21 ∧
      (meterAccumStep st buf).1 = ⟨[buf.1], [buf.2]⟩) ∧
    (meterAccumStep st buf).1.leftCollection.length ≤ 21 ∧
    (meterAccumStep st buf).1.rightCollection.length =
      (meterAccumStep st buf).1.leftCollection.length := by
  unfold meterAccumStep
  by_cases hgt : st.leftCollection.length > INPUT_BUFFERS_FOR_PEAK_CALCULATION
  · rw [if_pos hgt]
    have h21 : st.leftCollection.length = 21 := le_antisymm hlen hgt
    refine ⟨?_, by simp, by simp⟩
    intro w hw
    injection hw with hw
    rw [← hw]
    exact ⟨h21, heq.trans h21, rfl⟩
  · rw [if_neg hgt]
    refine ⟨?_, ?_, ?_⟩
    · intro w hw
      cases hw
    · simpa using Nat.succ_le_succ (not_lt.mp hgt)
    · simpa using heq

theorem runMeterAccumAux_window_len (bufs : List (List ℚ × List ℚ)) :
    ∀ st emitted, st.leftCollection.length ≤ 21 →
      st.rightCollection.length = st.leftCollection.length →
      (∀ w ∈ emitted, w.1.length = 21 ∧ w.2.length = 21) →
      ∀ w ∈ (runMeterAccumAux st emitted bufs).2,
        w.1.length = 21 ∧ w.2.length = 21 := by
  induction bufs with
  | nil => intro st emitted _ _ hemit w hw; exact hemit w hw
  | cons buf bufs ih =>
    intro st emitted hlen heq hemit w hw
    have hstep := meterAccumStep_window_len st buf hlen heq
    refine ih _ _ hstep.2.1 hstep.2.2 ?_ w hw
    intro v hv
    rcases List.mem_append.mp hv with hv | hv
    · exact hemit v hv
    · rcases ho : (meterAccumStep st buf).2 with _ | u
      · rw [ho] at hv; cases hv
      · rw [ho] at hv
        simp only [Option.toList_some, List.mem_singleton] at hv
        obtain ⟨h1, h2, -⟩ := hstep.1 u ho
        rw [hv]
        exact ⟨h1, h2⟩

/-- C5 amended: every peak window the analysis loop emits consists of
exactly 21 blocks (`INPUT_BUFFERS_FOR_PEAK_CALCULATION + 1`): a window
is formed on the pop after the accumulation exceeds 20 blocks, and the
accumulation is emptied (restarting from the single just-popped block)
before further blocks are collected. -/
theorem peak_window_c5_amended (bufs : List (List ℚ × List ℚ)) :
    (∀ w ∈ (runMeterAccum bufs).2,
      w.1.length = INPUT_BUFFERS_FOR_PEAK_CALCULATION + 1 ∧
      w.2.length = INPUT_BUFFERS_FOR_PEAK_CALCULATION + 1) ∧
    (∀ st : MeterAccum, ∀ buf w, (meterAccumStep st buf).2 = some w →
      (meterAccumStep st buf).1 = ⟨[buf.1], [buf.2]⟩) := by
  constructor
  · exact runMeterAccumAux_window_len bufs ⟨[], []⟩ [] (by simp) rfl
      (fun w hw => by cases hw)
  · intro st buf w hw
    unfold meterAccumStep at hw ⊢
    by_cases hgt : st.leftCollection.length > INPUT_BUFFERS_FOR_PEAK_CALCULATION
    · rw [if_pos hgt]
    · rw [if_neg hgt] at hw
      cases hw

/-- Witness for C5 amended: on the concrete 22-buffer run the emitted
window has 21 blocks on each side. -/
theorem peak_window_c5_amended_witness :
    ∀ w ∈ (runMeterAccum (List.replicate 22 (([] : List ℚ), ([] : List ℚ)))).2,
      w.1.length = INPUT_BUFFERS_FOR_PEAK_CALCULATION + 1 ∧
      w.2.length = INPUT_BUFFERS_FOR_PEAK_CALCULATION + 1 :=
  (peak_window_c5_amended (List.replicate 22 (([] : List ℚ), ([] : List ℚ)))).1

/-! ### Emission logic of the analysis loop (src/src/level_meter.rs 288-333)

After the raw peaks are computed, the loop compares them with the
previously stored raw peaks using f32 `!=` (`rustNe`: NaN compares
unequal to everything, equal infinities compare equal); only on a
difference does it store the new raw peaks, read the delta-mode flag
and the reference level, subtract the reference (IEEE subtraction on
the non-finite values, exact on finite ones) when delta mode is on, and
emit the two formatted strings. -/

def FVal.rustNe : FVal → FVal → Bool
  | .nan, _ => true
  | _, .nan => true
  | .inf, .inf => false
  | .negInf, .negInf => false
  | .fin a, .fin b => decide (a ≠ b)
  | _, _ => true

def FVal.sub : FVal → FVal → FVal
  | .nan, _ => .nan
  | _, .nan => .nan
  | .inf, .inf => .nan
  | .inf, _ => .inf
  | .negInf, .negInf => .nan
  | .negInf, _ => .negInf
  | .fin _, .inf => .negInf
  | .fin _, .negInf => .inf
  | .fin a, .fin b => .fin (a - b)

structure MeterEmitState where
  last_left_peak : FVal
  last_right_peak : FVal
  deriving DecidableEq

def meterEmitStep (st : MeterEmitState) (left right : FVal)
    (delta_mode_enabled : Bool) (reference_level : FVal) :
    MeterEmitState × Option (String × String) :=
  if FVal.rustNe st.last_left_peak left || FVal.rustNe st.last_right_peak right then
    let st2 : MeterEmitState := ⟨left, right⟩
    let left2 := if delta_mode_enabled then left.sub reference_level else left
    let right2 := if delta_mode_enabled then right.sub reference_level else right
    (st2, some (format_peak_delta_values_for_display left2,
      format_peak_delta_values_for_display right2))
  else (st, none)

/-! ### C8 -/

/-- C8: the re-emit-on-change test compares the raw peaks (before the
delta-mode subtraction) with the previously stored raw peaks: whether a
display value is emitted is independent of the delta-mode flag and the
reference level, an emission happens exactly when a raw peak differs
from the stored one under f32 `!=`, and the stored raw peaks are
updated to the new raw values on emission and kept otherwise. -/
theorem meter_reemit_raw_c8 (st : MeterEmitState) (left right : FVal)
    (m1 m2 : Bool) (r1 r2 : FVal) :
    ((meterEmitStep st left right m1 r1).2.isSome =
      (meterEmitStep st left right m2 r2).2.isSome) ∧
    ((meterEmitStep st left right m1 r1).2.isSome =
      (FVal.rustNe st.last_left_peak left ||
        FVal.rustNe st.last_right_peak right)) ∧
    ((meterEmitStep st left right m1 r1).1 =
      if FVal.rustNe st.last_left_peak left ||
          FVal.rustNe st.last_right_peak right then ⟨left, right⟩ else st) := by
  rcases hb : (FVal.rustNe st.last_left_peak left ||
      FVal.rustNe st.last_right_peak right) with _ | _ <;>
    simp [meterEmitStep, hb]

/-! ### Output-channel index derivation in `set_output_channel_on_ui_callback`
(src/src/devices.rs 345-348 and src/src/devices/output.rs 191-204)

These two copies compute `label.parse().unwrap_or(1) - 1` for the left
index and `label.parse().unwrap_or(0) - 1` for the right index with
PLAIN `usize` subtraction, unlike every other index-derivation site in
the repository, which uses `saturating_sub(1)` (src/src/devices.rs
61-72 / 87-98 / 182-195 / 249-263 / 288-302, src/src/devices/input.rs,
src/src/devices/output.rs 56-68 / 138-152,
src/src/device_manager.rs 250-256). Rust `usize` subtraction below
zero panics in a debug build and wraps modulo `2^64` in release;
`usizeSub` records both readings in its `underflow` constructor. -/

inductive UsizeSubResult where
  | ok (n : Nat)
  | underflow (wrapped : Nat)
  deriving DecidableEq, Repr

def usizeSub (a b : Nat) : UsizeSubResult :=
  if b ≤ a then .ok (a - b)
  else .underflow ((a + (USIZE_MAX + 1) - b) % (USIZE_MAX + 1))

def set_output_channel_left_index (left_output_channel : String) : UsizeSubResult :=
  usizeSub ((parseUsize left_output_channel).toOption.getD 1) 1

def set_output_channel_right_index (right_output_channel : String) : UsizeSubResult :=
  usizeSub ((parseUsize right_output_channel).toOption.getD 0) 1

/-- The saturating derivation used by every other index-derivation path
(e.g. src/src/devices.rs 67-72): `parse().unwrap_or(0).saturating_sub(1)`. -/
def saturating_right_index (right_channel : String) : Nat :=
  (parseUsize right_channel).toOption.getD 0 - 1

/-! ### C9 -/

/-- C9: in `set_output_channel_on_ui_callback` the right-index
derivation is not saturating: every right label that fails to parse
(including the empty string used for mono devices) defaults to 0 and
`0 - 1` underflows — wrapping to `usize::MAX` in release, a panic in
debug — where the saturating derivation used everywhere else yields
index 0. -/
theorem output_channel_underflow_c9 :
    (∀ s msg, parseUsize s = .error msg →
      set_output_channel_right_index s = .underflow USIZE_MAX ∧
      saturating_right_index s = 0) ∧
    set_output_channel_right_index "" = .underflow USIZE_MAX := by
  constructor
  · intro s msg h
    constructor
    · unfold set_output_channel_right_index
      rw [h]
      simp only [Except.toOption, Option.getD]
      decide
    · unfold saturating_right_index
      rw [h]
      simp [Except.toOption]
  · decide

/-- Witness for C9: the empty right label and an alphabetic one both
underflow to `usize::MAX`, while the saturating path yields 0. -/
theorem output_channel_underflow_c9_witness :
    (set_output_channel_right_index "" = .underflow USIZE_MAX ∧
      saturating_right_index "" = 0) ∧
    (set_output_channel_right_index "abc" = .underflow USIZE_MAX ∧
      saturating_right_index "abc" = 0) :=
  ⟨output_channel_underflow_c9.1 "" "cannot parse integer from empty string"
      (by decide),
   output_channel_underflow_c9.1 "abc" "invalid digit found in string"
      (by decide)⟩

/-! ### Device lookup by name

A host device is modelled by the outcome of its `name()` call; host
enumeration by the outcome of `host.input_devices()`. Two lookup paths
exist in the sources:

* `Devices::set_input_device_from_device_name`
  (src/src/devices.rs 364-386) panics with a fixed message both when
  enumeration fails and when no device carries the requested name —
  there is no fallback;
* `LevelMeter::get_input_device_from_device_name`
  (src/src/level_meter.rs 207-223) returns
  `Err(DeviceConfiguration(..))` on enumeration failure and
  `Err(DeviceNotFound(name))` when the name is absent. Its caller chain
  (`set_input_device_on_ui_callback`, then `run`'s
  `.expect("")`) unwraps the error, so no fallback happens there
  either. -/

structure RDevice where
  nameRes : Except String String
  deriving DecidableEq

/-- The find predicate both lookups use:
`device.name().is_ok() && device.name().unwrap() == device_name`. -/
def deviceNameMatches (d : RDevice) (device_name : String) : Bool :=
  match d.nameRes with
  | .ok n => n == device_name
  | .error _ => false

inductive DeviceLookupOutcome where
  | ok (d : RDevice)
  | panicked (msg : String)
  deriving DecidableEq

def PANIC_MESSAGE_WHEN_DEVICE_PASSED_FROM_THE_UI_DOES_NOT_EXIST : String :=
  "The selected device no longer exists!"

def Devices.set_input_device_from_device_name
    (host_input_devices : Except String (List RDevice))
    (device_name : String) : DeviceLookupOutcome :=
  match host_input_devices with
  | .ok devs =>
    match devs.find? (fun d => deviceNameMatches d device_name) with
    | some d => .ok d
    | none => .panicked PANIC_MESSAGE_WHEN_DEVICE_PASSED_FROM_THE_UI_DOES_NOT_EXIST
  | .error _ =>
    .panicked PANIC_MESSAGE_WHEN_DEVICE_PASSED_FROM_THE_UI_DOES_NOT_EXIST

def LevelMeter.get_input_device_from_device_name
    (host_input_devices : Except String (List RDevice))
    (device_name : String) : Except LocalError RDevice :=
  match host_input_devices with
  | .error err => .error (.DeviceConfiguration err)
  | .ok devs =>
    match devs.find? (fun d => deviceNameMatches d device_name) with
    | some d => .ok d
    | none => .error (.DeviceNotFound device_name)

/-! ### C6 -/

/-- C6 counterexample: a user-initiated device change naming a device
absent from the host does NOT fall back to the default device — the
`Devices` path panics with its fixed message (and the `LevelMeter` path
returns a `DeviceNotFound` error that its `run` loop unwraps with
`expect`), refuting "never crashes or panics the engine" at this
concrete input. -/
theorem device_not_found_c6_counterexample :
    Devices.set_input_device_from_device_name (.ok []) "Gone Device" =
      .panicked "The selected device no longer exists!" ∧
    LevelMeter.get_input_device_from_device_name (.ok []) "Gone Device" =
      .error (.DeviceNotFound "Gone Device") := by decide

/-- C6 amended: on a device change naming a device absent from the
host, no fallback to the default device occurs:
`Devices::set_input_device_from_device_name` panics with "The selected
device no longer exists!" (also when enumeration itself fails), while
`LevelMeter::get_input_device_from_device_name` surfaces the
recoverable `DeviceNotFound(name)` error (`DeviceConfiguration` on
enumeration failure). -/
theorem device_not_found_c6_amended :
    (∀ devs name, (∀ d ∈ devs, deviceNameMatches d name = false) →
      Devices.set_input_device_from_device_name (.ok devs) name =
        .panicked PANIC_MESSAGE_WHEN_DEVICE_PASSED_FROM_THE_UI_DOES_NOT_EXIST ∧
      LevelMeter.get_input_device_from_device_name (.ok devs) name =
        .error (.DeviceNotFound name)) ∧
    (∀ err name,
      Devices.set_input_device_from_device_name (.error err) name =
        .panicked PANIC_MESSAGE_WHEN_DEVICE_PASSED_FROM_THE_UI_DOES_NOT_EXIST ∧
      LevelMeter.get_input_device_from_device_name (.error err) name =
        .error (.DeviceConfiguration err)) := by
  constructor
  · intro devs name hnone
    have hfind : devs.find? (fun d => deviceNameMatches d name) = none :=
      List.find?_eq_none.mpr (fun d hd => by rw [hnone d hd]; exact Bool.false_ne_true)
    constructor
    · simp only [Devices.set_input_device_from_device_name, hfind]
    · simp only [LevelMeter.get_input_device_from_device_name, hfind]
  · intro err name
    exact ⟨rfl, rfl⟩

/-- Witness for C6 amended: a host with one device whose name call
fails, asked for "USB Interface". -/
theorem device_not_found_c6_amended_witness :
    Devices.set_input_device_from_device_name
        (.ok [⟨.error "io"⟩]) "USB Interface" =
      .panicked PANIC_MESSAGE_WHEN_DEVICE_PASSED_FROM_THE_UI_DOES_NOT_EXIST ∧
    LevelMeter.get_input_device_from_device_name
        (.ok [⟨.error "io"⟩]) "USB Interface" =
      .error (.DeviceNotFound "USB Interface") :=
  device_not_found_c6_amended.1 [⟨.error "io"⟩] "USB Interface" (by decide)

/-! ### Real-time callbacks
(src/src/level_meter.rs 397-451 `create_input_stream`,
src/src/tone_generator.rs 252-303 `create_output_steam`)

The input data callback demultiplexes the interleaved frame data at
the resolved channel indexes (`chunks_exact`, dropping a trailing
partial frame), then acquires the `std::sync::Mutex` around the shared
`rtrb` producer with `.lock()` — a waiting lock — and pushes the block;
`rtrb`'s `push` is non-blocking and returns `Err` on a full ring
(capacity `RING_BUFFER_SIZE = 1024`), which the callback merely reports
(`eprintln!`) before clearing its local buffers and returning. The
output data callback polls UI commands with the non-blocking
`try_recv` and synthesizes samples; it takes no lock. Each callback's
hot path is recorded as the ordered list of its effectful operations,
with `isWaitingLock` marking the operations that can make the
real-time thread wait. -/

def RING_BUFFER_SIZE : Nat := 1024

def chunksExact (n : Nat) (l : List α) : List (List α) :=
  if _h : 0 < n ∧ n ≤ l.length then
    l.take n :: chunksExact n (l.drop n)
  else []
termination_by l.length
decreasing_by
  simp only [List.length_drop]
  omega

/-- The demultiplexing loop of the input callback: for each frame, the
sample at the left index is collected, and at the right index when one
is selected; `none` models the index-out-of-range panic of
`frame[left_channel_index]`. -/
def demuxSamples (frames : List (List ℚ)) (left_channel_index : Nat)
    (right_channel_index : Option Nat) : Option (List ℚ × List ℚ) :=
  match frames.mapM (fun frame => frame[left_channel_index]?) with
  | none => none
  | some left_channel_samples =>
    match
      (match right_channel_index with
       | none => some []
       | some index => frames.mapM (fun frame => frame[index]?)) with
    | none => none
    | some right_channel_samples =>
      some (left_channel_samples, right_channel_samples)

/-- The input data callback as a state transformer on the bounded
sample queue: `none` models the index-out-of-range panic; the `Bool`
records whether a full-queue push failure was reported. The freshly
demultiplexed block is dropped (not enqueued) in that case. -/
def input_stream_data_callback (data : List ℚ) (number_of_channels : Nat)
    (left_channel_index : Nat) (right_channel_index : Option Nat)
    (queue : List (List ℚ × List ℚ)) :
    Option (List (List ℚ × List ℚ) × Bool) :=
  match demuxSamples (chunksExact number_of_channels data)
      left_channel_index right_channel_index with
  | none => none
  | some block =>
    if queue.length < RING_BUFFER_SIZE then some (queue ++ [block], false)
    else some (queue, true)

inductive RtOp where
  | demuxFrames
  | mutexLock
  | ringBufferPush
  | clearLocalBuffers
  | tryRecvCommands
  | synthesizeAndWriteChannels
  deriving DecidableEq, Repr

/-- Hot-path operations of the input data callback, in source order:
demultiplex, `sample_producer_mutex.lock()`, `sample_producer.push`,
clear the local sample buffers. -/
def input_callback_hot_path : List RtOp :=
  [.demuxFrames, .mutexLock, .ringBufferPush, .clearLocalBuffers]

/-- Hot-path operations of the output data callback, in source order:
drain `ui_command_receiver.try_recv()`, synthesize and write samples. -/
def output_callback_hot_path : List RtOp :=
  [.tryRecvCommands, .synthesizeAndWriteChannels]

/-- `mutexLock` is `std::sync::Mutex::lock`, which waits for the lock;
`ringBufferPush` (rtrb, fails on full) and `tryRecvCommands`
(crossbeam `try_recv`) are non-blocking. -/
def RtOp.isWaitingLock : RtOp → Bool
  | .mutexLock => true
  | _ => false

/-! ### C7 -/

/-- C7 counterexample: the input-capture callback does take a waiting
lock on its hot path — the `Mutex::lock` around the shared sample
producer — refuting "the output-synthesis and input-capture audio
callbacks take no waiting locks on their hot path". -/
theorem rt_callback_c7_counterexample :
    (RtOp.mutexLock ∈ input_callback_hot_path ∧
      RtOp.mutexLock.isWaitingLock = true) ∧
    ¬(∀ op ∈ input_callback_hot_path, op.isWaitingLock = false) := by decide

/-- C7 amended: the output callback takes no waiting locks (commands
are polled with non-blocking `try_recv`); the input callback's push
into the bounded queue is non-blocking — on a full queue the condition
is reported and the callback returns with the queue unchanged, and a
successful push grows the queue by exactly one block — but the input
callback does acquire a waiting `Mutex` lock on the shared sample
producer on its hot path. -/
theorem rt_callback_c7_amended :
    (∀ op ∈ output_callback_hot_path, op.isWaitingLock = false) ∧
    (RtOp.mutexLock ∈ input_callback_hot_path ∧
      RtOp.mutexLock.isWaitingLock = true) ∧
    (∀ data n li ri queue, RING_BUFFER_SIZE ≤ queue.length →
      input_stream_data_callback data n li ri queue = some (queue, true) ∨
      input_stream_data_callback data n li ri queue = none) ∧
    (∀ data n li ri queue q2,
      input_stream_data_callback data n li ri queue = some (q2, false) →
      q2.length = queue.length + 1) := by
  refine ⟨by decide, by decide, ?_, ?_⟩
  · intro data n li ri queue hfull
    rcases hd : demuxSamples (chunksExact n data) li ri with _ | block
    · exact Or.inr (by simp only [input_stream_data_callback, hd])
    · refine Or.inl ?_
      simp only [input_stream_data_callback, hd]
      rw [if_neg (by omega)]
  · intro data n li ri queue q2 h
    rcases hd : demuxSamples (chunksExact n data) li ri with _ | block
    · simp only [input_stream_data_callback, hd] at h
      cases h
    · simp only [input_stream_data_callback, hd] at h
      by_cases hlen : queue.length < RING_BUFFER_SIZE
      · rw [if_pos hlen] at h
        injection h with h
        have h1 := congrArg Prod.fst h
        simp only at h1
        rw [← h1]
        simp
      · rw [if_neg hlen] at h
        injection h with h
        exact absurd (congrArg Prod.snd h) (by simp)

/-- Witness for C7 amended: with the ring at its capacity of 1024
blocks, the callback reports the full queue and leaves it unchanged. -/
theorem rt_callback_c7_amended_witness :
    input_stream_data_callback [] 0 0 none
        (List.replicate 1024 ([], [])) =
      some (List.replicate 1024 ([], []), true) ∨
    input_stream_data_callback [] 0 0 none
        (List.replicate 1024 ([], [])) = none :=
  rt_callback_c7_amended.2.2.1 [] 0 0 none (List.replicate 1024 ([], []))
    (by simp only [List.length_replicate, RING_BUFFER_SIZE, le_refl])

/-! ### Device change for the level meter and the tone generator
(src/src/level_meter.rs 124-149 `update_current_input_device` with
182-205 `set_input_device`; src/src/tone_generator.rs 125-152
`update_current_output_device` with 188-212 `set_output_device`)

The engine state keeps the live device handle, the current-device
record and the cached device list. Stream construction and pausing are
host capabilities, passed as oracles returning the build outcome.
`i32AsUsize` is Rust's `as usize` cast of an `i32` (sign extension then
reinterpretation, i.e. reduction modulo `2^64`); an out-of-range or
wrapped index makes the `Vec` indexing panic, modelled by the
`panicked` outcome, as does `input_device_channels[0]` on a device
reporting no channels. -/

def i32AsUsize (i : Int) : Nat := (i % (2 ^ 64)).toNat

structure DeviceList where
  devices : List String
  channels : List (List String)
  deriving DecidableEq

structure CurrentDevice where
  index : Int
  name : String
  left_channel : String
  right_channel : Option String
  deriving DecidableEq

inductive UpdateOutcome (σ : Type) where
  | ok (st : σ)
  | err (e : LocalError)
  | panicked
  deriving DecidableEq

structure LevelMeterState where
  input_device : RDevice
  current_input_device : CurrentDevice
  input_device_list : DeviceList
  deriving DecidableEq

def LevelMeter.set_input_device (st : LevelMeterState)
    (host_input_devices : Except String (List RDevice))
    (build_input_stream : RDevice → Nat → Option Nat → Except String Unit)
    (pause_stream : Except String Unit)
    (device : CurrentDevice) : UpdateOutcome LevelMeterState :=
  match LevelMeter.get_input_device_from_device_name host_input_devices
      device.name with
  | .error e => .err e
  | .ok dev =>
    let st1 := { st with input_device := dev, current_input_device := device }
    match get_channel_indexes_from_channel_names device.left_channel
        device.right_channel with
    | .error e => .err e
    | .ok idxs =>
      match build_input_stream dev idxs.1 idxs.2 with
      | .error msg => .err (.InputStream msg)
      | .ok _ =>
        match pause_stream with
        | .error msg => .err (.InputStream msg)
        | .ok _ => .ok st1

def LevelMeter.update_current_input_device (st : LevelMeterState)
    (host_input_devices : Except String (List RDevice))
    (build_input_stream : RDevice → Nat → Option Nat → Except String Unit)
    (pause_stream : Except String Unit)
    (input_device_data : Int × String) : UpdateOutcome LevelMeterState :=
  match LevelMeter.get_input_device_from_device_name host_input_devices
      input_device_data.2 with
  | .error e => .err e
  | .ok dev =>
    let st1 := { st with input_device := dev }
    match st1.input_device_list.channels[i32AsUsize input_device_data.1]? with
    | none => .panicked
    | some input_device_channels =>
      match input_device_channels with
      | [] => .panicked
      | left_channel :: rest =>
        let right_channel :=
          if input_device_channels.length > 1 then rest.head? else none
        let current : CurrentDevice :=
          ⟨input_device_data.1, input_device_data.2, left_channel, right_channel⟩
        let st2 := { st1 with current_input_device := current }
        LevelMeter.set_input_device st2 host_input_devices build_input_stream
          pause_stream current

structure ToneGeneratorState where
  output_device : RDevice
  current_output_device : CurrentDevice
  output_device_list : DeviceList
  deriving DecidableEq

def ToneGenerator.get_output_device_from_device_name
    (host_output_devices : Except String (List RDevice))
    (device_name : String) : Except LocalError RDevice :=
  match host_output_devices with
  | .error err => .error (.DeviceConfiguration err)
  | .ok devs =>
    match devs.find? (fun d => deviceNameMatches d device_name) with
    | some d => .ok d
    | none => .error (.DeviceNotFound device_name)

def ToneGenerator.set_output_device (st : ToneGeneratorState)
    (host_output_devices : Except String (List RDevice))
    (create_output_steam : RDevice → Nat → Option Nat → Except String Unit)
    (pause_stream : Except String Unit)
    (device : CurrentDevice) : UpdateOutcome ToneGeneratorState :=
  match ToneGenerator.get_output_device_from_device_name host_output_devices
      device.name with
  | .error e => .err e
  | .ok dev =>
    let st1 := { st with output_device := dev, current_output_device := device }
    match get_channel_indexes_from_channel_names device.left_channel
        device.right_channel with
    | .error e => .err e
    | .ok idxs =>
      match create_output_steam dev idxs.1 idxs.2 with
      | .error msg => .err (.OutputStream msg)
      | .ok _ =>
        match pause_stream with
        | .error msg => .err (.OutputStream msg)
        | .ok _ => .ok st1

def ToneGenerator.update_current_output_device (st : ToneGeneratorState)
    (host_output_devices : Except String (List RDevice))
    (create_output_steam : RDevice → Nat → Option Nat → Except String Unit)
    (pause_stream : Except String Unit)
    (output_device_data : Int × String) : UpdateOutcome ToneGeneratorState :=
  match ToneGenerator.get_output_device_from_device_name host_output_devices
      output_device_data.2 with
  | .error e => .err e
  | .ok dev =>
    let st1 := { st with output_device := dev }
    match st1.output_device_list.channels[i32AsUsize output_device_data.1]? with
    | none => .panicked
    | some output_device_channels =>
      match output_device_channels with
      | [] => .panicked
      | left_channel :: rest =>
        let right_channel :=
          if output_device_channels.length > 1 then rest.head? else none
        let current : CurrentDevice :=
          ⟨output_device_data.1, output_device_data.2, left_channel, right_channel⟩
        let st2 := { st1 with current_output_device := current }
        ToneGenerator.set_output_device st2 host_output_devices
          create_output_steam pause_stream current

theorem LevelMeter.set_input_device_ok_current (st : LevelMeterState)
    (host : Except String (List RDevice))
    (bs : RDevice → Nat → Option Nat → Except String Unit)
    (ps : Except String Unit) (device : CurrentDevice) (st2 : LevelMeterState)
    (h : LevelMeter.set_input_device st host bs ps device = .ok st2) :
    st2.current_input_device = device := by
  unfold LevelMeter.set_input_device at h
  split at h
  · cases h
  · split at h
    · cases h
    · split at h
      · cases h
      · split at h
        · cases h
        · injection h with h
          rw [← h]

theorem ToneGenerator.set_output_device_ok_current (st : ToneGeneratorState)
    (host : Except String (List RDevice))
    (bs : RDevice → Nat → Option Nat → Except String Unit)
    (ps : Except String Unit) (device : CurrentDevice) (st2 : ToneGeneratorState)
    (h : ToneGenerator.set_output_device st host bs ps device = .ok st2) :
    st2.current_output_device = device := by
  unfold ToneGenerator.set_output_device at h
  split at h
  · cases h
  · split at h
    · cases h
    · split at h
      · cases h
      · split at h
        · cases h
        · injection h with h
          rw [← h]

/-! ### C10 -/

/-- C10: a successful device change discards the previously selected
channels: afterwards the current left channel is the first channel
label of the device-list entry for the new device, and the right
channel is its second label when the device reports more than one
channel and `none` otherwise — for both
`LevelMeter::update_current_input_device` and
`ToneGenerator::update_current_output_device`. -/
theorem device_change_resets_channels_c10 :
    (∀ st host bs ps idx name st2,
      LevelMeter.update_current_input_device st host bs ps (idx, name) =
        .ok st2 →
      ∃ chans l rest,
        st.input_device_list.channels[i32AsUsize idx]? = some chans ∧
        chans = l :: rest ∧
        st2.current_input_device =
          ⟨idx, name, l, if chans.length > 1 then rest.head? else none⟩) ∧
    (∀ st host bs ps idx name st2,
      ToneGenerator.update_current_output_device st host bs ps (idx, name) =
        .ok st2 →
      ∃ chans l rest,
        st.output_device_list.channels[i32AsUsize idx]? = some chans ∧
        chans = l :: rest ∧
        st2.current_output_device =
          ⟨idx, name, l, if chans.length > 1 then rest.head? else none⟩) := by
  constructor
  · intro st host bs ps idx name st2 h
    unfold LevelMeter.update_current_input_device at h
    split at h
    · cases h
    · simp only [] at h
      split at h
      · cases h
      · rename_i chans hchans
        split at h
        · cases h
        · rename_i l rest
          exact ⟨l :: rest, l, rest, hchans, rfl,
            LevelMeter.set_input_device_ok_current _ _ _ _ _ _ h⟩
  · intro st host bs ps idx name st2 h
    unfold ToneGenerator.update_current_output_device at h
    split at h
    · cases h
    · simp only [] at h
      split at h
      · cases h
      · rename_i chans hchans
        split at h
        · cases h
        · rename_i l rest
          exact ⟨l :: rest, l, rest, hchans, rfl,
            ToneGenerator.set_output_device_ok_current _ _ _ _ _ _ h⟩

/-- Witness for C10: a concrete successful input-device change onto a
two-channel device resets the channels to its labels "1" and "2". -/
theorem device_change_resets_channels_c10_witness :
    ∃ chans l rest,
      (DeviceList.mk ["Dev"] [["1", "2"]]).channels[i32AsUsize 0]? = some chans ∧
      chans = l :: rest ∧
      (LevelMeterState.mk ⟨.ok "Dev"⟩ ⟨0, "Dev", "1", some "2"⟩
          ⟨["Dev"], [["1", "2"]]⟩).current_input_device =
        ⟨0, "Dev", l, if chans.length > 1 then rest.head? else none⟩ :=
  device_change_resets_channels_c10.1
    ⟨⟨.ok "Old"⟩, ⟨0, "Old", "1", none⟩, ⟨["Dev"], [["1", "2"]]⟩⟩
    (.ok [⟨.ok "Dev"⟩]) (fun _ _ _ => .ok ()) (.ok ()) 0 "Dev"
    ⟨⟨.ok "Dev"⟩, ⟨0, "Dev", "1", some "2"⟩, ⟨["Dev"], [["1", "2"]]⟩⟩
    (by decide)

end StereoUnityGain
